import Mathlib

/-!
Verification development for the "Capture the Foot Goose" endless-runner game.

The definitions below are a shallow embedding of the final (modular) variant of
the game sources: JavaScript/TypeScript numbers are modelled as exact rationals
(`ℚ`), integral counters as `Int`/`Nat`, mutation as explicit state passing.
Purely visual state (mesh geometry, limb rotations, materials, UI elements) and
audio calls are not modelled; where a source branch depends on the environment
(random numbers, bounding-box geometry of meshes, clock deltas) the outcome of
that environmental computation is passed as an explicit parameter.
-/

namespace Ctfg

/-- Game constants from the shared constants module (final variant). -/
def LANE_WIDTH : ℚ := 8

/-- Number of lanes. -/
def TOTAL_LANES : ℚ := 3

/-- Base scrolling speed. -/
def GAME_SPEED : ℚ := 20

/-- Vertical velocity applied on jump. -/
def JUMP_FORCE : ℚ := 15

/-- Gravity, units per second squared. -/
def GRAVITY : ℚ := 30

/-! ## Shop (from the `Shop` class) -/

/-- A shop catalog entry: `id`, `price`, `unlocked`/`purchased` flags, category,
and the optional `type`/`value` pair carried by cosmetic items. Display-only
fields (name, description, icon) and the effect callback are not modelled. -/
structure ShopItem where
  id : String
  price : Int
  unlocked : Bool
  purchased : Bool
  category : String
  type : Option String
  value : Option String
deriving DecidableEq

/-- Shop state: the item catalog and the coin balance. -/
structure Shop where
  items : List ShopItem
  coins : Int
deriving DecidableEq

/-- Marks the first catalog entry with the given id as purchased, mirroring the
in-place mutation of the object returned by `find` in `purchaseItem`. -/
def setPurchasedAtFirst : List ShopItem → String → List ShopItem
  | [], _ => []
  | i :: rest, itemId =>
    if i.id == itemId then { i with purchased := true } :: rest
    else i :: setPurchasedAtFirst rest itemId

/-- Shop.purchaseItem: finds the item by id; fails if unknown, already
purchased, or locked; if affordable, deducts the price and marks the item
purchased, returning true; otherwise returns false with no mutation.
(The changed-callback, persistence and purchase sound are effects outside
the modelled state.) -/
def Shop.purchaseItem (s : Shop) (itemId : String) : Bool × Shop :=
  match s.items.find? (fun i => i.id == itemId) with
  | none => (false, s)
  | some item =>
    if item.purchased || !item.unlocked then (false, s)
    else if item.price ≤ s.coins then
      (true, { s with coins := s.coins - item.price,
                      items := setPurchasedAtFirst s.items itemId })
    else (false, s)

/-- Shop.isItemPurchased: purchased flag of the item with the given id,
false when the id is unknown. -/
def Shop.isItemPurchased (s : Shop) (itemId : String) : Bool :=
  match s.items.find? (fun i => i.id == itemId) with
  | none => false
  | some item => item.purchased

/-- Shop.addCoins (persistence and callback effects not modelled). -/
def Shop.addCoins (s : Shop) (amount : Int) : Shop :=
  { s with coins := s.coins + amount }

/-! ## Obstacle (from `Obstacle`) -/

/-- An obstacle: its randomly chosen type (0 box, 1 tall, 2 egg-shaped) and
position. -/
structure Obstacle where
  obstacleType : Nat
  x : ℚ
  y : ℚ
  z : ℚ
deriving DecidableEq

/-- Obstacle.getHeight: 2 for the tall type (1), 1 otherwise. -/
def Obstacle.getHeight (o : Obstacle) : ℚ :=
  if o.obstacleType = 1 then 2 else 1

/-- Axis-aligned bounding box (THREE.Box3). -/
structure Box3 where
  minX : ℚ
  minY : ℚ
  minZ : ℚ
  maxX : ℚ
  maxY : ℚ
  maxZ : ℚ
deriving DecidableEq

/-- THREE.Box3.intersectsBox: boxes intersect unless separated on some axis. -/
def Box3.intersectsBox (a b : Box3) : Bool :=
  !(decide (b.maxX < a.minX) || decide (b.minX > a.maxX) ||
    decide (b.maxY < a.minY) || decide (b.minY > a.maxY) ||
    decide (b.maxZ < a.minZ) || decide (b.minZ > a.maxZ))

/-- Game.checkCollision specialised to the Player-vs-Obstacle case (the egg
early-exit does not apply there). Takes the player's y and jumping state, the
obstacle, and the two bounding boxes computed from the meshes. If the boxes do
not intersect there is no collision; if the player is currently jumping, the
obstacle's top (`obstacle.y + height/2`, height from `getHeight`) is compared
with the player's feet (`player.y - 1`): clearing a short (height < 1.5)
obstacle waives the collision; otherwise a collision is reported. -/
def checkCollisionPlayerObstacle (playerY : ℚ) (isCurrentlyJumping : Bool)
    (o : Obstacle) (aBox bBox : Box3) : Bool :=
  if !(aBox.intersectsBox bBox) then false
  else if isCurrentlyJumping then
    let obstacleHeight := o.getHeight
    let obstacleTopY := o.y + obstacleHeight / 2
    let playerFeetY := playerY - 1
    if decide (playerFeetY > obstacleTopY) && decide (obstacleHeight < 3/2) then false
    else true
  else true

/-! ## Player (from `Player`) -/

/-- Character stat profile. -/
structure CharacterStats where
  jumpMultiplier : ℚ
  speedMultiplier : ℚ
  footSize : ℚ
  slipResistance : ℚ
deriving DecidableEq

/-- Player state. Customization identifiers are the TypeScript string-literal
union values stored as strings. Mesh/limb-rotation state is not modelled;
`runningCycle` is kept as the animation phase accumulator. -/
structure Player where
  lane : Int
  x : ℚ
  y : ℚ
  z : ℚ
  vx : ℚ
  vy : ℚ
  vz : ℚ
  isJumping : Bool
  jumpSafetyTimer : ℚ
  isSlipping : Bool
  slipTimer : ℚ
  slipDuration : ℚ
  slipDirection : ℚ
  slipRotation : ℚ
  slipVelocity : ℚ
  runningCycle : ℚ
  characterColor : String
  characterType : String
  currentHairstyle : String
  currentShoeStyle : String
  currentSkinStyle : String
  stats : CharacterStats
  jumpBoost : ℚ
  speedBoost : ℚ
  isShielded : Bool
  magnetRange : ℚ
  doubleJump : Bool
  hasDoubleJumped : Bool
deriving DecidableEq

/-- Player.moveLeft: decrement the lane, only when not slipping and above the
left bound. -/
def Player.moveLeft (p : Player) : Player :=
  if p.isSlipping = false ∧ p.lane > -1 then { p with lane := p.lane - 1 } else p

/-- Player.moveRight: increment the lane, only when not slipping and below the
right bound. -/
def Player.moveRight (p : Player) : Player :=
  if p.isSlipping = false ∧ p.lane < 1 then { p with lane := p.lane + 1 } else p

/-- Player.jump: allowed on the ground (`y ≤ 1`) or as a double jump when the
power-up is active and not yet consumed; an airborne double jump sets
`hasDoubleJumped`; a successful jump sets the vertical velocity to
`JUMP_FORCE * (1 + jumpBoost)` and the jumping flag. -/
def Player.jump (p : Player) : Player :=
  if p.y ≤ 1 ∨ (p.doubleJump = true ∧ p.hasDoubleJumped = false) then
    let p1 := if p.y > 1 ∧ p.doubleJump = true then { p with hasDoubleJumped := true } else p
    { p1 with vy := JUMP_FORCE * (1 + p1.jumpBoost), isJumping := true }
  else p

/-- Player.isCurrentlyJumping: jumping, or in the post-landing safety window. -/
def Player.isCurrentlyJumping (p : Player) : Bool :=
  p.isJumping || decide (p.jumpSafetyTimer > 0)

/-- Player.slip: start slipping (only when not already slipping); duration and
initial slide speed scale with freshness and are reduced by the slip-resistance
factor. `randDirection` is the outcome of the random ±1 direction choice. -/
def Player.slip (p : Player) (freshness : ℚ) (randDirection : ℚ) : Player :=
  if p.isSlipping = false then
    let resistanceFactor := 1 - p.stats.slipResistance
    { p with isSlipping := true, slipTimer := 0,
             slipDuration := (1 + freshness * 2) * resistanceFactor,
             slipDirection := randDirection,
             slipRotation := 0,
             slipVelocity := (3 + freshness * 5) * resistanceFactor }
  else p

/-- Player.isCurrentlySlipping. -/
def Player.isCurrentlySlipping (p : Player) : Bool :=
  p.isSlipping

/-- Gravity/landing block of `Player.update`: while jumping, gravity
decelerates the velocity and landing (`y ≤ 1`) clamps y to 1, zeroes velocity,
clears the jumping flag and opens the 0.1 s safety window; when not jumping,
the running phase accumulates (limb animation is visual-only). -/
def Player.updateJumpPhase (p : Player) (dt : ℚ) : Player :=
  if p.isJumping then
    let vy := p.vy - GRAVITY * dt
    let y := p.y + vy * dt
    if y ≤ 1 then
      { p with y := 1, vy := 0, isJumping := false, jumpSafetyTimer := 1/10 }
    else { p with y := y, vy := vy }
  else { p with runningCycle := p.runningCycle + dt * 10 * p.stats.speedMultiplier }

/-- Safety-timer decrement block of `Player.update`. -/
def Player.updateSafety (p : Player) (dt : ℚ) : Player :=
  if p.jumpSafetyTimer > 0 then { p with jumpSafetyTimer := p.jumpSafetyTimer - dt }
  else p

/-- Slip (or lane-easing) block of `Player.update`: while slipping, the timer
and spin advance, the position is displaced by
`slipVelocity * (1 - slipResistance) * dt * direction`, the stored velocity
decays by 0.98, the slip ends once the timer reaches the duration, and the
position is clamped to `±1.5 * LANE_WIDTH/TOTAL_LANES` with a bounce; when not
slipping, the position eases toward the lane target. -/
def Player.updateSlipPhase (p : Player) (dt : ℚ) : Player :=
  if p.isSlipping then
    let p3 := { p with
      slipTimer := p.slipTimer + dt,
      slipRotation := p.slipRotation + dt * 15 * p.slipDirection,
      x := p.x + p.slipVelocity * (1 - p.stats.slipResistance) * dt * p.slipDirection,
      slipVelocity := p.slipVelocity * (98/100) }
    let p4 :=
      if p3.slipTimer ≥ p3.slipDuration then
        { p3 with isSlipping := false, slipTimer := 0 }
      else p3
    let laneLimit := LANE_WIDTH / TOTAL_LANES * (3/2)
    if p4.x > laneLimit then
      { p4 with x := laneLimit, slipVelocity := p4.slipVelocity * (1/2), slipDirection := -1 }
    else if p4.x < -laneLimit then
      { p4 with x := -laneLimit, slipVelocity := p4.slipVelocity * (1/2), slipDirection := 1 }
    else p4
  else
    { p with x := p.x +
        ((p.lane : ℚ) * LANE_WIDTH / TOTAL_LANES - p.x) * (10 * p.stats.speedMultiplier) * dt }

/-- Player.update: the three sequential blocks of the source method —
jump physics, safety-timer decrement, then slip handling / lane easing. -/
def Player.update (p : Player) (dt : ℚ) : Player :=
  ((p.updateJumpPhase dt).updateSafety dt).updateSlipPhase dt

/-- Player.reset: canonical defaults for lane, jump/slip state, velocity,
position and animation phase; clears the power-up fields reset by the source
(`jumpBoost`, `speedBoost`, `isShielded`, `magnetRange`, `hasDoubleJumped`);
deliberately leaves every customization field unchanged. -/
def Player.reset (p : Player) : Player :=
  { p with lane := 0, isJumping := false, isSlipping := false, jumpSafetyTimer := 0,
           vx := 0, vy := 0, vz := 0,
           x := 0, y := 3/4, z := 0,
           runningCycle := 0,
           jumpBoost := 0, speedBoost := 0, isShielded := false, magnetRange := 0,
           hasDoubleJumped := false }

/-- Player.applyPowerup, restricted to the permanent (null-duration) calls the
game makes from `applyPurchasedPowerups`; timed expiry callbacks are outside
the modelled state. -/
def Player.applyPowerup (p : Player) (powerupType : String) (value : ℚ) : Player :=
  if powerupType == "jump_boost" then { p with jumpBoost := value }
  else if powerupType == "speed_boost" then { p with speedBoost := value }
  else if powerupType == "shield" then { p with isShielded := true }
  else if powerupType == "double_jump" then { p with doubleJump := true }
  else if powerupType == "magnet" then { p with magnetRange := value }
  else p

/-- Player.setShoeStyle (mesh regeneration is visual-only; the early return on
an unchanged style yields the same state). -/
def Player.setShoeStyle (p : Player) (s : String) : Player :=
  { p with currentShoeStyle := s }

/-- Player.setSkinStyle. -/
def Player.setSkinStyle (p : Player) (s : String) : Player :=
  { p with currentSkinStyle := s }

/-! ## Egg (from `Egg`) -/

/-- Egg state. `removed` records that `remove()` deregistered the egg. -/
structure Egg where
  x : ℚ
  y : ℚ
  z : ℚ
  vx : ℚ
  vy : ℚ
  vz : ℚ
  isBroken : Bool
  age : ℚ
  lifespan : ℚ
  isFixedInPlace : Bool
  hasHitGround : Bool
  markedForRemoval : Bool
  removed : Bool
deriving DecidableEq

/-- Egg state as the constructor leaves it: given position and velocity, age 0,
5-second lifespan, unbroken. -/
def Egg.create (x y z vx vy vz : ℚ) : Egg :=
  { x := x, y := y, z := z, vx := vx, vy := vy, vz := vz,
    isBroken := false, age := 0, lifespan := 5,
    isFixedInPlace := false, hasHitGround := false,
    markedForRemoval := false, removed := false }

/-- Egg.update: no-op once marked for removal; the age always advances and the
egg is removed past its lifespan; while unbroken, ballistic motion under
gravity and scroll, breaking on ground contact (`y ≤ 0.2` clamps y to 0.25,
fixes the egg in place and sets the broken and hit-ground flags); once broken
only the visual fade (not modelled) happens. -/
def Egg.update (e : Egg) (dt gameSpeed : ℚ) : Egg :=
  if e.markedForRemoval then e
  else
    let e1 := { e with age := e.age + dt }
    if e1.age > e1.lifespan then { e1 with removed := true }
    else if e1.isBroken = false then
      let vy := e1.vy - GRAVITY * dt
      let x := e1.x + e1.vx * dt
      let y := e1.y + vy * dt
      let z := e1.z + e1.vz * dt - gameSpeed * dt
      if y ≤ 1/5 then
        { e1 with vy := vy, x := x, y := 1/4, z := z,
                  isFixedInPlace := true, isBroken := true, hasHitGround := true }
      else { e1 with vy := vy, x := x, y := y, z := z }
    else e1

/-- Egg.getFreshness: 0 while unbroken; once broken,
`max 0 (1 - age / lifespan)`. -/
def Egg.getFreshness (e : Egg) : ℚ :=
  if e.isBroken = false then 0
  else max 0 (1 - e.age / e.lifespan)

/-! ## FootGoose (from `FootGoose`, reset only; its per-frame AI advances only
goose-internal animation and timer state, which no claim observes) -/

/-- FootGoose state (animation internals beyond the reset-relevant fields are
not modelled). -/
structure FootGoose where
  lane : Int
  x : ℚ
  y : ℚ
  z : ℚ
  vx : ℚ
  vy : ℚ
  vz : ℚ
  isJumping : Bool
  jumpTimer : ℚ
  laneChangeTimer : ℚ
  eggThrowTimer : ℚ
  isThrowingEgg : Bool
  runningCycle : ℚ
  eggs : List Egg
deriving DecidableEq

/-- FootGoose.reset: lane 1, grounded, zero velocity, canonical ahead position
`(lane·LANE_WIDTH/TOTAL_LANES, 0.75, 15)`, timers cleared, all eggs discarded,
animation phase cleared. -/
def FootGoose.reset (f : FootGoose) : FootGoose :=
  { f with lane := 1, isJumping := false,
           vx := 0, vy := 0, vz := 0,
           x := (1 : ℚ) * LANE_WIDTH / TOTAL_LANES, y := 3/4, z := 15,
           jumpTimer := 0, laneChangeTimer := 0, eggThrowTimer := 0,
           isThrowingEgg := false, runningCycle := 0, eggs := [] }

/-! ## Game (from `Game`) -/

/-- A character catalog entry (unlock bookkeeping only). -/
structure Character where
  id : String
  unlockScore : Int
  unlocked : Bool
deriving DecidableEq

/-- Game state over the fields the claims observe. UI elements, renderer,
camera, environment and ground scrolling are visual-only and not modelled. -/
structure Game where
  isGameRunning : Bool
  score : Int
  highScore : Int
  distanceTraveled : ℚ
  gameSpeed : ℚ
  spawnTimer : ℚ
  spawnInterval : ℚ
  player : Player
  footGoose : FootGoose
  obstacles : List Obstacle
  availableCharacters : List Character
  coinAwardTracker : List Int
  shop : Shop
deriving DecidableEq

/-- Game.checkCharacterUnlocks: unlock every still-locked character whose
threshold the score has reached (notification and save are UI/persistence). -/
def Game.checkCharacterUnlocks (g : Game) : Game :=
  { g with availableCharacters :=
      g.availableCharacters.map (fun c =>
        if c.unlocked = false ∧ g.score ≥ c.unlockScore then { c with unlocked := true }
        else c) }

/-- High-score block of `updateScore`: raise the high score when beaten
(persistence is outside the modelled state). -/
def Game.stepHighScore (g : Game) : Game :=
  if g.score > g.highScore then { g with highScore := g.score } else g

/-- Coin-award block of `updateScore`: award 10 coins when the score is a
positive multiple of 100 not already in the per-run award tracker, recording
the score value there. -/
def Game.stepCoinAward (g : Game) : Game :=
  if g.score > 0 ∧ g.score % 100 = 0 ∧ ¬(g.score ∈ g.coinAwardTracker) then
    { g with shop := g.shop.addCoins 10,
             coinAwardTracker := g.score :: g.coinAwardTracker }
  else g

/-- Game.updateScore: raise the high score when beaten, run the character
unlock check, then the coin award. The score display update itself is
UI-only. -/
def Game.updateScore (g : Game) : Game :=
  (g.stepHighScore.checkCharacterUnlocks).stepCoinAward

/-- The most recent purchased catalog value in a category carrying the given
`type` tag, as scanned by `applyPurchasedShoes` / `applyPurchasedSkins`
(last match in catalog order wins). -/
def lastPurchasedValue (items : List ShopItem) (category typeTag : String) : Option String :=
  (items.filter (fun i => i.category == category)).foldl
    (fun acc i =>
      if i.purchased = true ∧ i.type = some typeTag ∧ i.value.isSome then i.value else acc)
    none

/-- Game.applyPurchasedShoes: equip the most recently purchased shoe item. -/
def Game.applyPurchasedShoes (g : Game) : Game :=
  match lastPurchasedValue g.shop.items "shoes" "shoes" with
  | none => g
  | some v => { g with player := g.player.setShoeStyle v }

/-- Game.applyPurchasedSkins: equip the most recently purchased skin item. -/
def Game.applyPurchasedSkins (g : Game) : Game :=
  match lastPurchasedValue g.shop.items "skins" "skin" with
  | none => g
  | some v => { g with player := g.player.setSkinStyle v }

/-- Magnet block of `applyPurchasedPowerups` (permanent 3-unit magnet). -/
def Game.applyMagnet (g : Game) : Game :=
  if g.shop.isItemPurchased "magnet" then
    { g with player := g.player.applyPowerup "magnet" 3 }
  else g

/-- Shield block of `applyPurchasedPowerups` (permanent shield). -/
def Game.applyShield (g : Game) : Game :=
  if g.shop.isItemPurchased "shield" then
    { g with player := g.player.applyPowerup "shield" 1 }
  else g

/-- Head-start block of `applyPurchasedPowerups` (advance the distance). -/
def Game.applyHeadStart (g : Game) : Game :=
  if g.shop.isItemPurchased "head_start" then
    { g with distanceTraveled := g.distanceTraveled + 500 }
  else g

/-- Game.applyPurchasedPowerups: apply the permanent magnet, shield and
head-start effects when the corresponding shop ids are purchased
(`double_jump` and `coin_doubler` only log in the source and have no state
effect), then re-equip purchased shoes and skins. -/
def Game.applyPurchasedPowerups (g : Game) : Game :=
  (((g.applyMagnet).applyShield).applyHeadStart).applyPurchasedShoes.applyPurchasedSkins

/-- Object-reset block of `startGame`: reset the existing player and goose in
place (first-run object construction leaves them in the same state). -/
def Game.resetObjects (g : Game) : Game :=
  { g with player := g.player.reset, footGoose := g.footGoose.reset }

/-- Obstacle/spawn-timer reset block of `startGame`. -/
def Game.clearObstaclesAndTimers (g : Game) : Game :=
  { g with obstacles := [], spawnTimer := 0, spawnInterval := 2000 }

/-- Coin-award tracker clear (`resetCoinTracker` in the source). -/
def Game.clearCoinTracker (g : Game) : Game :=
  { g with coinAwardTracker := [] }

/-- Game.startGame. Not-running branch: mark running, zero score/distance,
reset the speed, refresh the score, reset the existing player and goose,
apply purchased power-ups, clear obstacles, reset the spawn timers, and clear
the coin-award tracker (UI visibility, sounds, clock restart and the loop
kick-off are effects outside the modelled state). Already-running branch:
in-place reset of score/distance/speed/objects/spawn timers only — no
power-up application and no tracker clear. -/
def Game.startGame (g : Game) : Game :=
  if g.isGameRunning = false then
    (((({ g with isGameRunning := true, score := 0, distanceTraveled := 0, gameSpeed := GAME_SPEED } : Game).updateScore).resetObjects).applyPurchasedPowerups).clearObstaclesAndTimers.clearCoinTracker
  else
    ((({ g with score := 0, distanceTraveled := 0, gameSpeed := GAME_SPEED } : Game).updateScore).resetObjects).clearObstaclesAndTimers

/-- Distance/score block of `Game.update`: accumulate the distance and
recompute `score = ⌊distanceTraveled⌋`. -/
def Game.stepDistanceScore (g : Game) (dt : ℚ) : Game :=
  { g with distanceTraveled := g.distanceTraveled + g.gameSpeed * dt,
           score := ⌊g.distanceTraveled + g.gameSpeed * dt⌋ }

/-- Difficulty ramp: `gameSpeed = GAME_SPEED + distanceTraveled/1000`. -/
def Game.stepSpeed (g : Game) : Game :=
  { g with gameSpeed := GAME_SPEED + g.distanceTraveled / 1000 }

/-- Advance the player by one frame. -/
def Game.stepPlayer (g : Game) (dt : ℚ) : Game :=
  { g with player := g.player.update dt }

/-- Obstacle spawn block: accumulate the timer in milliseconds; once it
reaches the interval, spawn one obstacle far ahead (its random lane position
and type are the `spawnX`/`spawnType` parameters), reset the timer and shrink
the interval by 50 ms down to the 500 ms floor. -/
def Game.stepSpawn (g : Game) (dt spawnX : ℚ) (spawnType : Nat) : Game :=
  let g5 := { g with spawnTimer := g.spawnTimer + dt * 1000 }
  if g5.spawnTimer ≥ g5.spawnInterval then
    { g5 with
        obstacles := g5.obstacles ++
          [{ obstacleType := spawnType, x := spawnX,
             y := if spawnType = 1 then 1 else 1/2, z := 100 }],
        spawnTimer := 0,
        spawnInterval := max 500 (g5.spawnInterval - 50) }
  else g5

/-- Obstacle scroll-and-cull block: every obstacle moves toward the player by
`gameSpeed·dt` and obstacles behind `z < -20` are removed. -/
def Game.stepObstacles (g : Game) (dt : ℚ) : Game :=
  let moved :=
    (g.obstacles.map (fun o => { o with z := o.z - g.gameSpeed * dt })).filter
      (fun o => decide (-20 ≤ o.z))
  { g with obstacles := moved }

/-- Obstacle-collision outcome: when the per-obstacle scan reported a hit and
the player is not slipping (the grace period), the game restarts in place. -/
def Game.stepObstacleHit (g : Game) (obstacleHit : Bool) : Game :=
  if obstacleHit = true ∧ g.player.isCurrentlySlipping = false then g.startGame
  else g

/-- FootGoose capture block: on a capture, add the 1000-point bonus, refresh
the score, and reset the goose. -/
def Game.stepCapture (g : Game) (captured : Bool) : Game :=
  if captured then
    let g9 := { g with score := g.score + 1000 }
    let g10 := g9.updateScore
    { g10 with footGoose := g10.footGoose.reset }
  else g

/-- Game.update for one frame, the sequence of blocks of the source method:
distance/score, score refresh, speed ramp, player physics, obstacle spawning,
obstacle scrolling, obstacle-hit restart, and the capture check. `dt` is the
clock delta; `spawnX`/`spawnType` are the random position and type of a
spawned obstacle; `obstacleHit` and `captured` are the outcomes of the
bounding-box collision scans, which need mesh geometry. The goose AI step and
the egg-collision pass mutate only goose/egg/slip state that no claim here
observes and are not modelled. -/
def Game.update (g : Game) (dt spawnX : ℚ) (spawnType : Nat)
    (obstacleHit captured : Bool) : Game :=
  if g.isGameRunning = false then g
  else
    ((((((g.stepDistanceScore dt).updateScore).stepSpeed.stepPlayer dt).stepSpawn
        dt spawnX spawnType).stepObstacles dt).stepObstacleHit
        obstacleHit).stepCapture captured

/-! ## Move sequences and concrete states used by the theorems below -/

/-- A lateral input: a `moveLeft()` or `moveRight()` call. -/
inductive LaneMove where
  | left
  | right
deriving DecidableEq

/-- Applies a sequence of lateral inputs to the player. -/
def applyLaneMoves (p : Player) : List LaneMove → Player
  | [] => p
  | LaneMove.left :: ms => applyLaneMoves p.moveLeft ms
  | LaneMove.right :: ms => applyLaneMoves p.moveRight ms

/-- Default-character stat profile. -/
def defaultStats : CharacterStats :=
  { jumpMultiplier := 1, speedMultiplier := 1, footSize := 1, slipResistance := 0 }

/-- A freshly constructed default player standing on the ground at the center
lane. -/
def basePlayer : Player :=
  { lane := 0, x := 0, y := 1, z := 0, vx := 0, vy := 0, vz := 0,
    isJumping := false, jumpSafetyTimer := 0, isSlipping := false,
    slipTimer := 0, slipDuration := 0, slipDirection := 0, slipRotation := 0,
    slipVelocity := 0, runningCycle := 0,
    characterColor := "blue", characterType := "default",
    currentHairstyle := "none", currentShoeStyle := "none",
    currentSkinStyle := "none",
    stats := defaultStats, jumpBoost := 0, speedBoost := 0, isShielded := false,
    magnetRange := 0, doubleJump := false, hasDoubleJumped := false }

/-- A grounded player holding the double-jump power-up. -/
def cJumpP0 : Player := { basePlayer with doubleJump := true }

/-- First airborne period: ground jump, a frame of flight, the airborne double
jump, then a long frame that lands the player. -/
def cJumpS4 : Player := (((cJumpP0.jump).update (1/10)).jump).update 2

/-- Second airborne period: a fresh ground jump off the landing, then a frame
of flight leaving the player airborne again. -/
def cJumpS6 : Player := ((cJumpS4.jump).update (1/10))

/-- An airborne player with no double-jump power-up. -/
def cAirPlayer : Player := { basePlayer with y := 2, isJumping := true, vy := 5 }

/-- An egg released one unit above the ground with zero velocity. -/
def cEgg0 : Egg := Egg.create 0 1 0 0 0 0

/-- The same egg after a single half-second frame, during which it falls to the
ground and breaks. -/
def cEgg1 : Egg := cEgg0.update (1/2) 20

/-- A shield catalog item, unlocked and unpurchased. -/
def wShieldItem : ShopItem :=
  { id := "shield", price := 200, unlocked := true, purchased := false,
    category := "powerup", type := none, value := none }

/-- A locked catalog item. -/
def wLockedItem : ShopItem :=
  { id := "crown", price := 500, unlocked := false, purchased := false,
    category := "cosmetic", type := none, value := none }

/-- A concrete shop holding 250 coins. -/
def wShop : Shop := { items := [wShieldItem, wLockedItem], coins := 250 }

/-- A canonical goose ahead of the player in the right lane. -/
def baseGoose : FootGoose :=
  { lane := 1, x := 8/3, y := 3/4, z := 15, vx := 0, vy := 0, vz := 0,
    isJumping := false, jumpTimer := 0, laneChangeTimer := 0, eggThrowTimer := 0,
    isThrowingEgg := false, runningCycle := 0, eggs := [] }

/-- A running game whose previous run already awarded the 10 coins for
score 100 (the value is in the tracker) and whose balance is 0. -/
def cGame0 : Game :=
  { isGameRunning := true, score := 57, highScore := 150,
    distanceTraveled := 57, gameSpeed := 20, spawnTimer := 0,
    spawnInterval := 2000, player := basePlayer, footGoose := baseGoose,
    obstacles := [], availableCharacters := [], coinAwardTracker := [100],
    shop := { items := [], coins := 0 } }

/-- The next run, begun by the in-place restart path (`startGame` while
already running, as after an obstacle collision or the Restart button). -/
def cGame1 : Game := cGame0.startGame

/-- The new run after a 5-second frame, which brings the distance to exactly
100 and hence the score to the fresh multiple 100. -/
def cGame2 : Game := cGame1.update 5 0 0 false false

/-- A running game for exercising the in-place-restart branch, with shield,
magnet and head-start marked purchased in the shop. -/
def wGame8R : Game :=
  { isGameRunning := true, score := 42, highScore := 0,
    distanceTraveled := 42, gameSpeed := 21, spawnTimer := 100,
    spawnInterval := 1900,
    player := { basePlayer with isShielded := true, magnetRange := 3 },
    footGoose := baseGoose, obstacles := [], availableCharacters := [],
    coinAwardTracker := [100],
    shop := { items :=
      [{ id := "shield", price := 200, unlocked := true, purchased := true,
         category := "powerup", type := none, value := none },
       { id := "magnet", price := 150, unlocked := true, purchased := true,
         category := "powerup", type := none, value := none },
       { id := "head_start", price := 200, unlocked := true, purchased := true,
         category := "booster", type := none, value := none }], coins := 10 } }

/-- The same game before any run has started. -/
def wGame8N : Game := { wGame8R with isGameRunning := false }

/-- A running game used to exercise the capture-bonus path. -/
def wGame9 : Game :=
  { isGameRunning := true, score := 10, highScore := 50,
    distanceTraveled := 21/2, gameSpeed := 20, spawnTimer := 0,
    spawnInterval := 2000, player := basePlayer, footGoose := baseGoose,
    obstacles := [], availableCharacters := [], coinAwardTracker := [],
    shop := { items := [], coins := 0 } }

/-- Purple-giant stat profile from `setCharacterType`. -/
def purpleGiantStats : CharacterStats :=
  { jumpMultiplier := 4/5, speedMultiplier := 7/10,
    footSize := 3/2, slipResistance := 1/2 }

/-- A purple-giant player (slip resistance 1/2) standing still. -/
def wSlipPlayer : Player :=
  { basePlayer with characterType := "purple_giant", stats := purpleGiantStats }

/-! ## Helper lemmas -/

/-- Marking the first matching catalog entry as purchased is exactly what a
subsequent `find?` for the same id observes. -/
theorem find?_setPurchasedAtFirst (itemId : String) :
    ∀ (l : List ShopItem) (item : ShopItem),
      l.find? (fun i => i.id == itemId) = some item →
      (setPurchasedAtFirst l itemId).find? (fun i => i.id == itemId) =
        some { item with purchased := true } := by
  intro l
  induction l with
  | nil => intro item h; simp at h
  | cons a rest ih =>
    intro item h
    by_cases ha : ((fun i : ShopItem => i.id == itemId) a) = true
    · rw [@List.find?_cons_of_pos _ (fun i : ShopItem => i.id == itemId) a rest ha] at h
      cases h
      simp only [setPurchasedAtFirst, if_pos ha]
      exact @List.find?_cons_of_pos _ (fun i : ShopItem => i.id == itemId) _ _ ha
    · rw [@List.find?_cons_of_neg _ (fun i : ShopItem => i.id == itemId) a rest ha] at h
      simp only [setPurchasedAtFirst, if_neg ha]
      rw [@List.find?_cons_of_neg _ (fun i : ShopItem => i.id == itemId) a _ ha]
      exact ih item h

/-! ## C1 -/

/-- C1: `purchaseItem(id)` returns false with no mutation when the id is
unknown, the item is already purchased, the item is locked, or the balance is
insufficient; when the item exists, is unlocked, unpurchased and affordable, it
returns true, deducts exactly the price from the coin balance, and sets that
item's purchased flag. -/
theorem shop_purchaseItem_spec (s : Shop) (itemId : String) :
    (s.items.find? (fun i => i.id == itemId) = none →
       s.purchaseItem itemId = (false, s)) ∧
    (∀ item, s.items.find? (fun i => i.id == itemId) = some item →
       item.purchased = true ∨ item.unlocked = false ∨ s.coins < item.price →
       s.purchaseItem itemId = (false, s)) ∧
    (∀ item, s.items.find? (fun i => i.id == itemId) = some item →
       item.purchased = false → item.unlocked = true → item.price ≤ s.coins →
       (s.purchaseItem itemId).1 = true ∧
       (s.purchaseItem itemId).2.coins = s.coins - item.price ∧
       (s.purchaseItem itemId).2.items.find? (fun i => i.id == itemId) =
         some { item with purchased := true }) := by
  refine ⟨?_, ?_, ?_⟩
  · intro h
    simp [Shop.purchaseItem, h]
  · intro item h hfail
    simp only [Shop.purchaseItem, h]
    rcases hfail with hp | hu | hc
    · simp [hp]
    · simp [hu]
    · have hc' : ¬ item.price ≤ s.coins := not_le.mpr hc
      by_cases hp : item.purchased <;> by_cases hu : item.unlocked <;>
        simp [hp, hu, hc']
  · intro item h hp hu hc
    have hcond : (item.purchased || !item.unlocked) = false := by
      rw [hp, hu]; rfl
    refine ⟨?_, ?_, ?_⟩ <;>
      simp only [Shop.purchaseItem, h, hcond, Bool.false_eq_true, if_false, if_pos hc]
    exact find?_setPurchasedAtFirst itemId s.items item h

/-- Witness for C1: in a concrete shop with 250 coins, buying the 200-coin
shield succeeds, leaves 50 coins, and marks the shield purchased; buying the
locked crown fails and mutates nothing. -/
theorem shop_purchaseItem_spec_witness :
    ((wShop.purchaseItem "shield").1 = true ∧
       (wShop.purchaseItem "shield").2.coins = wShop.coins - wShieldItem.price ∧
       (wShop.purchaseItem "shield").2.items.find? (fun i => i.id == "shield") =
         some { wShieldItem with purchased := true }) ∧
    wShop.purchaseItem "crown" = (false, wShop) := by
  constructor
  · exact (shop_purchaseItem_spec wShop "shield").2.2 wShieldItem (by decide)
      (by decide) (by decide) (by decide)
  · exact (shop_purchaseItem_spec wShop "crown").2.1 wLockedItem (by decide)
      (Or.inr (Or.inl (by decide)))

/-! ## C2 -/

/-- C2: with overlapping bounding boxes and the player currently jumping, a
short obstacle (height < 1.5) whose top is below the player's feet
(`player.y - 1 > obstacle.y + height/2`) yields no collision, while a tall
obstacle (height ≥ 1.5) always yields a collision. -/
theorem checkCollision_jump_over (playerY : ℚ) (o : Obstacle) (aBox bBox : Box3)
    (hbox : aBox.intersectsBox bBox = true) :
    (o.getHeight < 3/2 → playerY - 1 > o.y + o.getHeight / 2 →
       checkCollisionPlayerObstacle playerY true o aBox bBox = false) ∧
    (3/2 ≤ o.getHeight →
       checkCollisionPlayerObstacle playerY true o aBox bBox = true) := by
  constructor
  · intro hh hf
    simp [checkCollisionPlayerObstacle, hbox, hh, hf]
  · intro hh
    simp [checkCollisionPlayerObstacle, hbox, not_lt.mpr hh]

/-- Witness for C2: a box-type obstacle of height 1 is cleared by a player at
y = 2.2, while a tall obstacle of height 2 at the same spot still collides. -/
theorem checkCollision_jump_over_witness :
    checkCollisionPlayerObstacle (11/5) true
      { obstacleType := 0, x := 0, y := 1/2, z := 0 }
      { minX := -1/2, minY := 0, minZ := -1/2, maxX := 1/2, maxY := 2, maxZ := 1/2 }
      { minX := -2/5, minY := 0, minZ := -2/5, maxX := 2/5, maxY := 1, maxZ := 2/5 } = false ∧
    checkCollisionPlayerObstacle (11/5) true
      { obstacleType := 1, x := 0, y := 1, z := 0 }
      { minX := -1/2, minY := 0, minZ := -1/2, maxX := 1/2, maxY := 2, maxZ := 1/2 }
      { minX := -1/4, minY := 0, minZ := -1/4, maxX := 1/4, maxY := 2, maxZ := 1/4 } = true := by
  constructor
  · exact (checkCollision_jump_over (11/5)
      { obstacleType := 0, x := 0, y := 1/2, z := 0 } _ _
      (by norm_num [Box3.intersectsBox])).1
      (by norm_num [Obstacle.getHeight]) (by norm_num [Obstacle.getHeight])
  · exact (checkCollision_jump_over (11/5)
      { obstacleType := 1, x := 0, y := 1, z := 0 } _ _
      (by norm_num [Box3.intersectsBox])).2
      (by norm_num [Obstacle.getHeight])

/-! ## C6 -/

/-- C6: `reset()` restores lane 0, position (0, 0.75, 0), zero velocity, the
default jump/slip flags and safety timer, and clears the power-up fields
(jump boost, speed boost, shield, magnet range, the consumed double-jump
marker), while leaving the character color, character type, hairstyle, shoe
style and skin style untouched. -/
theorem player_reset_spec (p : Player) :
    p.reset.lane = 0 ∧ p.reset.x = 0 ∧ p.reset.y = 3/4 ∧ p.reset.z = 0 ∧
    p.reset.vx = 0 ∧ p.reset.vy = 0 ∧ p.reset.vz = 0 ∧
    p.reset.isJumping = false ∧ p.reset.isSlipping = false ∧
    p.reset.jumpSafetyTimer = 0 ∧
    p.reset.jumpBoost = 0 ∧ p.reset.speedBoost = 0 ∧
    p.reset.isShielded = false ∧ p.reset.magnetRange = 0 ∧
    p.reset.hasDoubleJumped = false ∧
    p.reset.characterColor = p.characterColor ∧
    p.reset.characterType = p.characterType ∧
    p.reset.currentHairstyle = p.currentHairstyle ∧
    p.reset.currentShoeStyle = p.currentShoeStyle ∧
    p.reset.currentSkinStyle = p.currentSkinStyle := by
  refine ⟨rfl, rfl, rfl, rfl, rfl, rfl, rfl, rfl, rfl, rfl,
    rfl, rfl, rfl, rfl, rfl, rfl, rfl, rfl, rfl, rfl⟩

/-! ## C7 -/

/-- Resulting lane of a `moveLeft()` call. -/
theorem Player.moveLeft_lane (p : Player) :
    p.moveLeft.lane =
      if p.isSlipping = false ∧ p.lane > -1 then p.lane - 1 else p.lane := by
  unfold Player.moveLeft
  split <;> rfl

/-- Resulting lane of a `moveRight()` call. -/
theorem Player.moveRight_lane (p : Player) :
    p.moveRight.lane =
      if p.isSlipping = false ∧ p.lane < 1 then p.lane + 1 else p.lane := by
  unfold Player.moveRight
  split <;> rfl

/-- Every lateral-input sequence keeps a lane within bounds. -/
theorem applyLaneMoves_lane_bounds :
    ∀ (ms : List LaneMove) (p : Player), -1 ≤ p.lane → p.lane ≤ 1 →
      -1 ≤ (applyLaneMoves p ms).lane ∧ (applyLaneMoves p ms).lane ≤ 1 := by
  intro ms
  induction ms with
  | nil => intro p h1 h2; exact ⟨h1, h2⟩
  | cons m ms ih =>
    intro p h1 h2
    cases m with
    | left =>
      refine ih p.moveLeft ?_ ?_ <;> rw [Player.moveLeft_lane] <;> split <;> omega
    | right =>
      refine ih p.moveRight ?_ ?_ <;> rw [Player.moveRight_lane] <;> split <;> omega

/-- C7: starting from any in-bounds lane, every sequence of
`moveLeft()`/`moveRight()` calls keeps the lane within {-1, 0, 1};
`moveLeft()` at lane -1 and `moveRight()` at lane 1 are no-ops, and both are
no-ops while slipping. -/
theorem player_lane_bounds (p : Player) :
    (-1 ≤ p.lane → p.lane ≤ 1 → ∀ ms : List LaneMove,
       -1 ≤ (applyLaneMoves p ms).lane ∧ (applyLaneMoves p ms).lane ≤ 1) ∧
    (p.lane = -1 → p.moveLeft = p) ∧
    (p.lane = 1 → p.moveRight = p) ∧
    (p.isSlipping = true → p.moveLeft = p ∧ p.moveRight = p) := by
  refine ⟨fun h1 h2 ms => applyLaneMoves_lane_bounds ms p h1 h2, ?_, ?_, ?_⟩
  · intro h
    have : ¬ (p.isSlipping = false ∧ p.lane > -1) := by omega
    simp [Player.moveLeft, this]
  · intro h
    have : ¬ (p.isSlipping = false ∧ p.lane < 1) := by omega
    simp [Player.moveRight, this]
  · intro h
    constructor
    · have : ¬ (p.isSlipping = false ∧ p.lane > -1) := by simp [h]
      simp [Player.moveLeft, this]
    · have : ¬ (p.isSlipping = false ∧ p.lane < 1) := by simp [h]
      simp [Player.moveRight, this]

/-- Witness for C7: from the center lane, two lefts and a right end at lane
-1 hitting the bound, a slipping player moves nowhere, and a player at the
right bound ignores `moveRight()`. -/
theorem player_lane_bounds_witness :
    (-1 ≤ (applyLaneMoves basePlayer
        [LaneMove.left, LaneMove.left, LaneMove.right]).lane ∧
      (applyLaneMoves basePlayer
        [LaneMove.left, LaneMove.left, LaneMove.right]).lane ≤ 1) ∧
    Player.moveRight { basePlayer with lane := 1 } = { basePlayer with lane := 1 } := by
  constructor
  · exact (player_lane_bounds basePlayer).1 (by decide) (by decide)
      [LaneMove.left, LaneMove.left, LaneMove.right]
  · exact (player_lane_bounds { basePlayer with lane := 1 }).2.2.1 rfl

/-! ## C3 -/

/-- Update never touches the consumed-double-jump marker. -/
theorem Player.update_hasDoubleJumped (p : Player) (dt : ℚ) :
    (p.update dt).hasDoubleJumped = p.hasDoubleJumped := by
  show (((p.updateJumpPhase dt).updateSafety dt).updateSlipPhase dt).hasDoubleJumped = _
  have h1 : ∀ q : Player, (q.updateJumpPhase dt).hasDoubleJumped = q.hasDoubleJumped := by
    intro q
    unfold Player.updateJumpPhase
    dsimp only
    split_ifs <;> rfl
  have h2 : ∀ q : Player, (q.updateSafety dt).hasDoubleJumped = q.hasDoubleJumped := by
    intro q
    unfold Player.updateSafety
    split_ifs <;> rfl
  have h3 : ∀ q : Player, (q.updateSlipPhase dt).hasDoubleJumped = q.hasDoubleJumped := by
    intro q
    unfold Player.updateSlipPhase
    dsimp only
    split_ifs <;> rfl
  rw [h3, h2, h1]

/-- Jump never touches the double-jump power-up flag itself. -/
theorem Player.jump_doubleJump (p : Player) :
    p.jump.doubleJump = p.doubleJump := by
  simp only [Player.jump]
  split_ifs <;> rfl

/-- Counterexample to C3: the extra airborne jump is not restored per airborne
period. A double-jump player jumps, double-jumps, lands (`cJumpS4` is grounded
with the jump flag cleared), jumps again off the ground and is airborne a
second time (`cJumpS6`), yet `jump()` in this fresh airborne period has no
effect at all, because landing never cleared `hasDoubleJumped`. -/
theorem player_double_jump_counterexample :
    cJumpS4.y = 1 ∧ cJumpS4.isJumping = false ∧
    cJumpS4.hasDoubleJumped = true ∧
    cJumpS6.y > 1 ∧ cJumpS6.doubleJump = true ∧
    cJumpS6.jump = cJumpS6 := by
  refine ⟨?_, ?_, ?_, ?_, ?_, ?_⟩ <;>
    norm_num [cJumpS6, cJumpS4, cJumpP0, basePlayer, defaultStats,
      Player.jump, Player.update, Player.updateJumpPhase, Player.updateSafety,
      Player.updateSlipPhase, JUMP_FORCE, GRAVITY, LANE_WIDTH, TOTAL_LANES]

/-- C3 (amended): `jump()` has no effect when the player is airborne (`y > 1`)
and either the double-jump power-up is inactive or the extra jump is already
consumed; with the power-up active and unconsumed, an airborne jump succeeds
and consumes the extra jump; every successful jump sets the vertical velocity
to `JUMP_FORCE * (1 + jumpBoost)`; and the consumed marker is restored only by
`reset()`, never by landing or any other `update()`. -/
theorem player_jump_gating_amended (p : Player) (dt : ℚ) :
    (p.y > 1 → p.doubleJump = false → p.jump = p) ∧
    (p.y > 1 → p.hasDoubleJumped = true → p.jump = p) ∧
    (p.y > 1 → p.doubleJump = true → p.hasDoubleJumped = false →
       p.jump = { p with hasDoubleJumped := true,
                         vy := JUMP_FORCE * (1 + p.jumpBoost), isJumping := true }) ∧
    (p.y ≤ 1 →
       p.jump = { p with vy := JUMP_FORCE * (1 + p.jumpBoost), isJumping := true }) ∧
    (p.update dt).hasDoubleJumped = p.hasDoubleJumped ∧
    p.reset.hasDoubleJumped = false := by
  refine ⟨?_, ?_, ?_, ?_, Player.update_hasDoubleJumped p dt, rfl⟩
  · intro hy hd
    have hguard : ¬ (p.y ≤ 1 ∨ (p.doubleJump = true ∧ p.hasDoubleJumped = false)) := by
      simp [not_le.mpr hy, hd]
    simp [Player.jump, hguard]
  · intro hy hd
    have hguard : ¬ (p.y ≤ 1 ∨ (p.doubleJump = true ∧ p.hasDoubleJumped = false)) := by
      simp [not_le.mpr hy, hd]
    simp [Player.jump, hguard]
  · intro hy hd hh
    have hguard : p.y ≤ 1 ∨ (p.doubleJump = true ∧ p.hasDoubleJumped = false) :=
      Or.inr ⟨hd, hh⟩
    have hin : p.y > 1 ∧ p.doubleJump = true := ⟨hy, hd⟩
    simp only [Player.jump, if_pos hguard, if_pos hin]
  · intro hy
    have hguard : p.y ≤ 1 ∨ (p.doubleJump = true ∧ p.hasDoubleJumped = false) :=
      Or.inl hy
    have hinner : ¬ (p.y > 1 ∧ p.doubleJump = true) := by
      intro hx
      exact absurd hy (not_le.mpr hx.1)
    simp only [Player.jump, if_pos hguard, if_neg hinner]

/-- Witness for C3 (amended): an airborne player without the power-up is
unaffected by `jump()`, and a grounded default player jumps with velocity
exactly `JUMP_FORCE`. -/
theorem player_jump_gating_amended_witness :
    (cAirPlayer.y > 1 ∧ cAirPlayer.doubleJump = false ∧
       cAirPlayer.jump = cAirPlayer) ∧
    (basePlayer.y ≤ 1 ∧
       basePlayer.jump =
         { basePlayer with vy := JUMP_FORCE * (1 + basePlayer.jumpBoost),
                           isJumping := true }) := by
  refine ⟨⟨by norm_num [cAirPlayer, basePlayer], rfl, ?_⟩, ⟨by norm_num [basePlayer], ?_⟩⟩
  · exact (player_jump_gating_amended cAirPlayer 1).1
      (by norm_num [cAirPlayer, basePlayer]) rfl
  · exact (player_jump_gating_amended basePlayer 1).2.2.2.1
      (by norm_num [basePlayer])

/-! ## C5 -/

/-- Counterexample to C5: freshness does not equal 1.0 at the moment of
breaking. An egg dropped from y = 1 breaks during a single half-second frame,
and at that very moment its freshness is 0.9, because the age driving
`max(0, 1 - age/lifespan)` accrues from the egg's creation and is not reset
when the egg breaks. -/
theorem egg_freshness_at_break_counterexample :
    cEgg0.isBroken = false ∧ cEgg1.isBroken = true ∧ cEgg1.hasHitGround = true ∧
    cEgg1.getFreshness = 9/10 ∧ cEgg1.getFreshness ≠ 1 := by
  refine ⟨rfl, ?_, ?_, ?_, ?_⟩ <;>
    norm_num [cEgg1, cEgg0, Egg.create, Egg.update, Egg.getFreshness, GRAVITY]

/-- C5 (amended): an unbroken egg reports freshness 0; a broken egg reports
`max(0, 1 - age/lifespan)` with age counted from the egg's creation — 0 from
the end of the lifespan on, non-increasing as age grows, and at the moment of
ground impact equal to `1 - (age at impact)/lifespan`, which is strictly below
1.0 for any positive flight time. -/
theorem egg_freshness_decay_amended (e : Egg) (a b dt gs : ℚ) :
    (e.isBroken = false → e.getFreshness = 0) ∧
    (e.isBroken = true → 0 < e.lifespan → e.lifespan ≤ e.age → e.getFreshness = 0) ∧
    (e.isBroken = true → e.age = 0 → e.getFreshness = 1) ∧
    (e.isBroken = true → 0 < e.lifespan → 0 < e.age → e.getFreshness < 1) ∧
    (0 < e.lifespan → a ≤ b →
       Egg.getFreshness { e with isBroken := true, age := b } ≤
       Egg.getFreshness { e with isBroken := true, age := a }) ∧
    (e.markedForRemoval = false → e.isBroken = false →
       e.age + dt ≤ e.lifespan →
       e.y + (e.vy - GRAVITY * dt) * dt ≤ 1/5 →
       (e.update dt gs).isBroken = true ∧
       (e.update dt gs).getFreshness = max 0 (1 - (e.age + dt) / e.lifespan)) := by
  refine ⟨?_, ?_, ?_, ?_, ?_, ?_⟩
  · intro h
    simp [Egg.getFreshness, h]
  · intro h hl hle
    have h1 : (1 : ℚ) ≤ e.age / e.lifespan := (one_le_div hl).mpr hle
    have h2 : 1 - e.age / e.lifespan ≤ 0 := by linarith
    simp [Egg.getFreshness, h, max_eq_left h2]
  · intro h ha
    simp [Egg.getFreshness, h, ha]
  · intro h hl ha
    have h1 : 0 < e.age / e.lifespan := div_pos ha hl
    have h2 : 1 - e.age / e.lifespan < 1 := by linarith
    have hne : ¬ (true = false) := by simp
    simp only [Egg.getFreshness, h]
    rw [if_neg hne]
    exact max_lt one_pos h2
  · intro hl hab
    have hdiv : a / e.lifespan ≤ b / e.lifespan :=
      (div_le_div_iff_of_pos_right hl).mpr hab
    have h2 : 1 - b / e.lifespan ≤ 1 - a / e.lifespan := by linarith
    have hne : ¬ (true = false) := by simp
    show (if ({ e with isBroken := true, age := b } : Egg).isBroken = false then (0:ℚ)
          else max 0 (1 - b / e.lifespan)) ≤
         (if ({ e with isBroken := true, age := a } : Egg).isBroken = false then (0:ℚ)
          else max 0 (1 - a / e.lifespan))
    rw [if_neg hne, if_neg hne]
    exact max_le_max le_rfl h2
  · intro hm hb hage hy
    simp only [Egg.update]
    split_ifs with h1 h2
    · exact absurd h1 (by simp [hm])
    · exact absurd h2 (not_lt.mpr hage)
    · exact ⟨rfl, by simp [Egg.getFreshness]⟩

/-! ## C4 -/

/-- The capture block is the identity when no capture happened. -/
theorem Game.stepCapture_false (g : Game) : g.stepCapture false = g := rfl

/-- The obstacle-hit block is the identity when no hit was reported. -/
theorem Game.stepObstacleHit_false (g : Game) : g.stepObstacleHit false = g := by
  unfold Game.stepObstacleHit
  rw [if_neg]
  simp

/-- Fields the score-refresh path never writes. -/
theorem Game.updateScore_untouched (g : Game) :
    (g.updateScore).isGameRunning = g.isGameRunning ∧
    (g.updateScore).score = g.score ∧
    (g.updateScore).distanceTraveled = g.distanceTraveled ∧
    (g.updateScore).gameSpeed = g.gameSpeed ∧
    (g.updateScore).spawnTimer = g.spawnTimer ∧
    (g.updateScore).spawnInterval = g.spawnInterval ∧
    (g.updateScore).player = g.player ∧
    (g.updateScore).footGoose = g.footGoose ∧
    (g.updateScore).obstacles = g.obstacles := by
  unfold Game.updateScore Game.stepHighScore Game.checkCharacterUnlocks Game.stepCoinAward
  split_ifs <;> exact ⟨rfl, rfl, rfl, rfl, rfl, rfl, rfl, rfl, rfl⟩

/-- High-score block fixpoint condition. -/
theorem Game.stepHighScore_eq_self (g : Game) (h : ¬ (g.score > g.highScore)) :
    g.stepHighScore = g := by
  unfold Game.stepHighScore
  rw [if_neg h]

/-- After the high-score block the score never exceeds the high score. -/
theorem Game.stepHighScore_post (g : Game) :
    ¬ ((g.stepHighScore).score > (g.stepHighScore).highScore) := by
  unfold Game.stepHighScore
  split_ifs with h
  · exact lt_irrefl g.score
  · exact h

/-- Unlock-check fixpoint condition. -/
theorem Game.checkCharacterUnlocks_eq_self (g : Game)
    (h : g.availableCharacters.map (fun c =>
        if c.unlocked = false ∧ g.score ≥ c.unlockScore then { c with unlocked := true }
        else c) = g.availableCharacters) :
    g.checkCharacterUnlocks = g := by
  unfold Game.checkCharacterUnlocks
  rw [h]

/-- The per-character unlock pass is idempotent. -/
theorem unlockMap_idem (s : Int) (l : List Character) :
    (l.map (fun c =>
        if c.unlocked = false ∧ s ≥ c.unlockScore then { c with unlocked := true }
        else c)).map (fun c =>
        if c.unlocked = false ∧ s ≥ c.unlockScore then { c with unlocked := true }
        else c) =
    l.map (fun c =>
        if c.unlocked = false ∧ s ≥ c.unlockScore then { c with unlocked := true }
        else c) := by
  rw [List.map_map]
  refine List.map_congr_left ?_
  intro c _
  by_cases hc : c.unlocked = false ∧ s ≥ c.unlockScore
  · have hnot : ¬ (({ c with unlocked := true } : Character).unlocked = false ∧
        s ≥ ({ c with unlocked := true } : Character).unlockScore) := by
      intro hx
      simpa using hx.1
    simp only [Function.comp_apply, if_pos hc, if_neg hnot]
  · simp only [Function.comp_apply, if_neg hc]

/-- Coin-award block fixpoint condition. -/
theorem Game.stepCoinAward_eq_self (g : Game)
    (h : ¬ (g.score > 0 ∧ g.score % 100 = 0 ∧ ¬ (g.score ∈ g.coinAwardTracker))) :
    g.stepCoinAward = g := by
  unfold Game.stepCoinAward
  rw [if_neg h]

/-- After the coin-award block, its own guard is dead: either nothing was
awarded because the guard already failed, or the score value is now recorded
in the tracker. -/
theorem Game.stepCoinAward_post (g : Game) :
    ¬ ((g.stepCoinAward).score > 0 ∧ (g.stepCoinAward).score % 100 = 0 ∧
       ¬ ((g.stepCoinAward).score ∈ (g.stepCoinAward).coinAwardTracker)) := by
  unfold Game.stepCoinAward
  split_ifs with h
  · intro hc
    exact hc.2.2 (List.mem_cons_self _ _)
  · exact h

/-- Stage fields feeding the later guards. -/
theorem Game.stage_fields (g : Game) :
    (g.stepHighScore).score = g.score ∧
    (g.stepHighScore).coinAwardTracker = g.coinAwardTracker ∧
    (g.stepHighScore).availableCharacters = g.availableCharacters ∧
    (g.checkCharacterUnlocks).score = g.score ∧
    (g.checkCharacterUnlocks).highScore = g.highScore ∧
    (g.checkCharacterUnlocks).coinAwardTracker = g.coinAwardTracker ∧
    (g.stepCoinAward).score = g.score ∧
    (g.stepCoinAward).highScore = g.highScore ∧
    (g.stepCoinAward).availableCharacters = g.availableCharacters := by
  unfold Game.stepHighScore Game.checkCharacterUnlocks Game.stepCoinAward
  split_ifs <;> exact ⟨rfl, rfl, rfl, rfl, rfl, rfl, rfl, rfl, rfl⟩

/-- The whole score-refresh path is idempotent: a second invocation at the
same score changes nothing. -/
theorem Game.updateScore_idem (g : Game) :
    g.updateScore.updateScore = g.updateScore := by
  have hsc₁ : (g.stepHighScore).score = g.score := (Game.stage_fields g).1
  have htr₁ : (g.stepHighScore).coinAwardTracker = g.coinAwardTracker :=
    (Game.stage_fields g).2.1
  set g1 := g.stepHighScore with hg1
  have hsc₂ : (g1.checkCharacterUnlocks).score = g1.score :=
    (Game.stage_fields g1).2.2.2.1
  have hhs₂ : (g1.checkCharacterUnlocks).highScore = g1.highScore :=
    (Game.stage_fields g1).2.2.2.2.1
  have htr₂ : (g1.checkCharacterUnlocks).coinAwardTracker = g1.coinAwardTracker :=
    (Game.stage_fields g1).2.2.2.2.2.1
  set g2 := g1.checkCharacterUnlocks with hg2
  have hsc₃ : (g2.stepCoinAward).score = g2.score := (Game.stage_fields g2).2.2.2.2.2.2.1
  have hhs₃ : (g2.stepCoinAward).highScore = g2.highScore :=
    (Game.stage_fields g2).2.2.2.2.2.2.2.1
  have hch₃ : (g2.stepCoinAward).availableCharacters = g2.availableCharacters :=
    (Game.stage_fields g2).2.2.2.2.2.2.2.2
  set r := g2.stepCoinAward with hrr
  show r.stepHighScore.checkCharacterUnlocks.stepCoinAward = r
  have e1 : r.stepHighScore = r := by
    apply Game.stepHighScore_eq_self
    rw [hsc₃, hhs₃, hsc₂, hhs₂, hsc₁]
    have := Game.stepHighScore_post g
    rw [hsc₁] at this
    exact this
  rw [e1]
  have e2 : r.checkCharacterUnlocks = r := by
    apply Game.checkCharacterUnlocks_eq_self
    have hch₂ : g2.availableCharacters =
        g1.availableCharacters.map (fun c =>
          if c.unlocked = false ∧ g1.score ≥ c.unlockScore then { c with unlocked := true }
          else c) := rfl
    rw [hch₃, hsc₃, hsc₂, hch₂]
    exact unlockMap_idem g1.score g1.availableCharacters
  rw [e2]
  exact Game.stepCoinAward_eq_self r (Game.stepCoinAward_post g2)

/-- Counterexample to C4: the award tracker is NOT cleared by the in-place
restart path. `cGame0` is a running game whose tracker already holds 100;
`startGame()` invoked while running (the path taken after an obstacle
collision and by the Restart button) begins a fresh run with score 0 yet
leaves 100 in the tracker, and when the new run reaches score 100 no coins
are awarded, so the same score value cannot award again in that next run. -/
theorem coin_award_per_run_counterexample :
    cGame0.isGameRunning = true ∧
    cGame1.score = 0 ∧ cGame1.distanceTraveled = 0 ∧
    cGame1.coinAwardTracker = [100] ∧
    cGame2.score = 100 ∧
    cGame2.shop.coins = cGame0.shop.coins := by
  refine ⟨rfl, ?_, ?_, ?_, ?_, ?_⟩ <;>
    norm_num [cGame2, cGame1, cGame0, Game.update, Game.startGame,
      Game.stepDistanceScore, Game.updateScore, Game.stepHighScore,
      Game.checkCharacterUnlocks, Game.stepCoinAward, Game.stepSpeed,
      Game.stepPlayer, Game.stepSpawn, Game.stepObstacles,
      Game.stepObstacleHit, Game.stepCapture, Game.applyPurchasedPowerups,
      Game.applyMagnet, Game.applyShield, Game.applyHeadStart,
      Game.resetObjects, Game.clearObstaclesAndTimers, Game.clearCoinTracker,
      Player.applyPowerup,
      Game.applyPurchasedShoes, Game.applyPurchasedSkins, lastPurchasedValue,
      Shop.isItemPurchased, Shop.addCoins, Player.reset, Player.update,
      Player.updateJumpPhase, Player.updateSafety, Player.updateSlipPhase,
      Player.isCurrentlySlipping, FootGoose.reset, basePlayer, baseGoose,
      defaultStats, GAME_SPEED, GRAVITY, LANE_WIDTH, TOTAL_LANES]

/-- C4 (amended): for a fixed score value that is a positive exact multiple of
100, the 10-coin award fires at most once per tracker lifetime even when the
score-refresh path runs repeatedly at that value (`updateScore` is
idempotent, and a tracked value never awards again); the tracker is cleared
only by `startGame()` from the not-running state — the in-place restart
branch taken while the game is running leaves the previous run's tracker
intact. -/
theorem coin_award_tracking_amended (g : Game) :
    g.updateScore.updateScore = g.updateScore ∧
    (g.score ∈ g.coinAwardTracker →
       (g.updateScore).shop.coins = g.shop.coins ∧
       (g.updateScore).coinAwardTracker = g.coinAwardTracker) ∧
    (g.score > 0 → g.score % 100 = 0 → ¬ (g.score ∈ g.coinAwardTracker) →
       (g.updateScore).shop.coins = g.shop.coins + 10 ∧
       (g.updateScore).coinAwardTracker = g.score :: g.coinAwardTracker) ∧
    (g.isGameRunning = false → (g.startGame).coinAwardTracker = []) ∧
    (g.isGameRunning = true → (g.startGame).coinAwardTracker = g.coinAwardTracker) := by
  refine ⟨Game.updateScore_idem g, ?_, ?_, ?_, ?_⟩
  · intro hmem
    have hna : ¬ ((g.stepHighScore.checkCharacterUnlocks).score > 0 ∧
        (g.stepHighScore.checkCharacterUnlocks).score % 100 = 0 ∧
        ¬ ((g.stepHighScore.checkCharacterUnlocks).score ∈
            (g.stepHighScore.checkCharacterUnlocks).coinAwardTracker)) := by
      intro hc
      apply hc.2.2
      have h1 : (g.stepHighScore.checkCharacterUnlocks).score = g.score := by
        rw [(Game.stage_fields g.stepHighScore).2.2.2.1, (Game.stage_fields g).1]
      have h2 : (g.stepHighScore.checkCharacterUnlocks).coinAwardTracker =
          g.coinAwardTracker := by
        rw [(Game.stage_fields g.stepHighScore).2.2.2.2.2.1, (Game.stage_fields g).2.1]
      rw [h1, h2]
      exact hmem
    show ((g.stepHighScore.checkCharacterUnlocks).stepCoinAward).shop.coins = _ ∧
      ((g.stepHighScore.checkCharacterUnlocks).stepCoinAward).coinAwardTracker = _
    rw [Game.stepCoinAward_eq_self _ hna]
    constructor
    · show (g.stepHighScore.checkCharacterUnlocks).shop.coins = g.shop.coins
      have : (g.stepHighScore.checkCharacterUnlocks).shop = g.shop := by
        unfold Game.stepHighScore Game.checkCharacterUnlocks
        split_ifs <;> rfl
      rw [this]
    · show (g.stepHighScore.checkCharacterUnlocks).coinAwardTracker = g.coinAwardTracker
      rw [(Game.stage_fields g.stepHighScore).2.2.2.2.2.1, (Game.stage_fields g).2.1]
  · intro hpos hmod hmem
    have h1 : (g.stepHighScore.checkCharacterUnlocks).score = g.score := by
      rw [(Game.stage_fields g.stepHighScore).2.2.2.1, (Game.stage_fields g).1]
    have h2 : (g.stepHighScore.checkCharacterUnlocks).coinAwardTracker =
        g.coinAwardTracker := by
      rw [(Game.stage_fields g.stepHighScore).2.2.2.2.2.1, (Game.stage_fields g).2.1]
    have hshop : (g.stepHighScore.checkCharacterUnlocks).shop = g.shop := by
      unfold Game.stepHighScore Game.checkCharacterUnlocks
      split_ifs <;> rfl
    have hcond : ((g.stepHighScore.checkCharacterUnlocks).score > 0 ∧
        (g.stepHighScore.checkCharacterUnlocks).score % 100 = 0 ∧
        ¬ ((g.stepHighScore.checkCharacterUnlocks).score ∈
            (g.stepHighScore.checkCharacterUnlocks).coinAwardTracker)) := by
      rw [h1, h2]
      exact ⟨hpos, hmod, hmem⟩
    show ((g.stepHighScore.checkCharacterUnlocks).stepCoinAward).shop.coins = _ ∧
      ((g.stepHighScore.checkCharacterUnlocks).stepCoinAward).coinAwardTracker = _
    unfold Game.stepCoinAward
    rw [if_pos hcond]
    constructor
    · show (g.stepHighScore.checkCharacterUnlocks).shop.coins + 10 = g.shop.coins + 10
      rw [hshop]
    · show (g.stepHighScore.checkCharacterUnlocks).score ::
          (g.stepHighScore.checkCharacterUnlocks).coinAwardTracker =
        g.score :: g.coinAwardTracker
      rw [h1, h2]
  · intro h
    unfold Game.startGame
    rw [if_pos h]
    rfl
  · intro h
    unfold Game.startGame
    rw [if_neg (by simp [h])]
    show (({ g with score := 0, distanceTraveled := 0, gameSpeed := GAME_SPEED } : Game).updateScore).coinAwardTracker = g.coinAwardTracker
    set gz : Game := { g with score := 0, distanceTraveled := 0, gameSpeed := GAME_SPEED } with hgz
    have hna : ¬ ((gz.stepHighScore.checkCharacterUnlocks).score > 0 ∧
        (gz.stepHighScore.checkCharacterUnlocks).score % 100 = 0 ∧
        ¬ ((gz.stepHighScore.checkCharacterUnlocks).score ∈
            (gz.stepHighScore.checkCharacterUnlocks).coinAwardTracker)) := by
      intro hc
      have h1 : (gz.stepHighScore.checkCharacterUnlocks).score = gz.score := by
        rw [(Game.stage_fields gz.stepHighScore).2.2.2.1, (Game.stage_fields gz).1]
      rw [h1] at hc
      exact absurd hc.1 (lt_irrefl 0)
    show ((gz.stepHighScore.checkCharacterUnlocks).stepCoinAward).coinAwardTracker = _
    rw [Game.stepCoinAward_eq_self _ hna]
    rw [(Game.stage_fields gz.stepHighScore).2.2.2.2.2.1, (Game.stage_fields gz).2.1]

/-- Witness for C4 (amended): the not-running start clears a non-empty
tracker, and the in-place restart of `wGame8R` preserves its tracker. -/
theorem coin_award_tracking_amended_witness :
    wGame8N.startGame.coinAwardTracker = [] ∧
    wGame8R.startGame.coinAwardTracker = wGame8R.coinAwardTracker := by
  constructor
  · exact (coin_award_tracking_amended wGame8N).2.2.2.1 rfl
  · exact (coin_award_tracking_amended wGame8R).2.2.2.2 rfl

/-- Witness for C5 (amended): the concrete dropped egg breaks during its
half-second frame and reports freshness `max 0 (1 - (0 + 1/2)/5)`. -/
theorem egg_freshness_decay_amended_witness :
    (cEgg0.update (1/2) 20).isBroken = true ∧
    (cEgg0.update (1/2) 20).getFreshness = max 0 (1 - (cEgg0.age + 1/2) / cEgg0.lifespan) :=
  (egg_freshness_decay_amended cEgg0 0 1 (1/2) 20).2.2.2.2.2 rfl rfl
    (by norm_num [cEgg0, Egg.create])
    (by norm_num [cEgg0, Egg.create, GRAVITY])

/-! ## C8 -/

/-- The magnet block leaves the shop, shield, distance and everything but the
player's magnet range unchanged; when the magnet id is purchased it sets the
range to 3. -/
theorem Game.applyMagnet_effects (g : Game) :
    (g.applyMagnet).shop = g.shop ∧
    (g.applyMagnet).player.isShielded = g.player.isShielded ∧
    (g.applyMagnet).distanceTraveled = g.distanceTraveled ∧
    (g.shop.isItemPurchased "magnet" = true →
       (g.applyMagnet).player.magnetRange = 3) := by
  unfold Game.applyMagnet
  split_ifs with h
  · exact ⟨rfl, rfl, rfl, fun _ => rfl⟩
  · exact ⟨rfl, rfl, rfl, fun hc => absurd hc h⟩

/-- The shield block: preserves the shop, magnet range and distance; sets the
shield when the shield id is purchased. -/
theorem Game.applyShield_effects (g : Game) :
    (g.applyShield).shop = g.shop ∧
    (g.applyShield).player.magnetRange = g.player.magnetRange ∧
    (g.applyShield).distanceTraveled = g.distanceTraveled ∧
    (g.shop.isItemPurchased "shield" = true →
       (g.applyShield).player.isShielded = true) := by
  unfold Game.applyShield
  split_ifs with h
  · exact ⟨rfl, rfl, rfl, fun _ => rfl⟩
  · exact ⟨rfl, rfl, rfl, fun hc => absurd hc h⟩

/-- The head-start block: preserves the shop and the whole player; adds 500 to
the distance when the head-start id is purchased. -/
theorem Game.applyHeadStart_effects (g : Game) :
    (g.applyHeadStart).shop = g.shop ∧
    (g.applyHeadStart).player = g.player ∧
    (g.shop.isItemPurchased "head_start" = true →
       (g.applyHeadStart).distanceTraveled = g.distanceTraveled + 500) := by
  unfold Game.applyHeadStart
  split_ifs with h
  · exact ⟨rfl, rfl, fun _ => rfl⟩
  · exact ⟨rfl, rfl, fun hc => absurd hc h⟩

/-- Equipping shoes touches only the player's shoe style. -/
theorem Game.applyPurchasedShoes_preserves (g : Game) :
    (g.applyPurchasedShoes).player.isShielded = g.player.isShielded ∧
    (g.applyPurchasedShoes).player.magnetRange = g.player.magnetRange ∧
    (g.applyPurchasedShoes).distanceTraveled = g.distanceTraveled ∧
    (g.applyPurchasedShoes).shop = g.shop := by
  unfold Game.applyPurchasedShoes
  rcases hv : lastPurchasedValue g.shop.items "shoes" "shoes" with - | v <;>
    simp [hv, Player.setShoeStyle]

/-- Equipping skins touches only the player's skin style. -/
theorem Game.applyPurchasedSkins_preserves (g : Game) :
    (g.applyPurchasedSkins).player.isShielded = g.player.isShielded ∧
    (g.applyPurchasedSkins).player.magnetRange = g.player.magnetRange ∧
    (g.applyPurchasedSkins).distanceTraveled = g.distanceTraveled ∧
    (g.applyPurchasedSkins).shop = g.shop := by
  unfold Game.applyPurchasedSkins
  rcases hv : lastPurchasedValue g.shop.items "skins" "skin" with - | v <;>
    simp [hv, Player.setSkinStyle]

/-- Shop items are never changed by the score-refresh path (only the coin
balance may grow). -/
theorem Game.updateScore_shop_items (g : Game) :
    (g.updateScore).shop.items = g.shop.items := by
  unfold Game.updateScore Game.stepHighScore Game.checkCharacterUnlocks
    Game.stepCoinAward Shop.addCoins
  split_ifs <;> rfl

/-- Purchase flags depend only on the catalog items. -/
theorem Shop.isItemPurchased_congr {s t : Shop} (h : s.items = t.items)
    (itemId : String) : s.isItemPurchased itemId = t.isItemPurchased itemId := by
  unfold Shop.isItemPurchased
  rw [h]

/-- Resetting the objects touches neither the shop nor the distance. -/
theorem Game.resetObjects_fields (g : Game) :
    (g.resetObjects).shop = g.shop ∧
    (g.resetObjects).distanceTraveled = g.distanceTraveled := ⟨rfl, rfl⟩

/-- Clearing obstacles and timers touches neither the player nor the
distance. -/
theorem Game.clearObstaclesAndTimers_fields (g : Game) :
    (g.clearObstaclesAndTimers).player = g.player ∧
    (g.clearObstaclesAndTimers).distanceTraveled = g.distanceTraveled ∧
    (g.clearObstaclesAndTimers).score = g.score ∧
    (g.clearObstaclesAndTimers).gameSpeed = g.gameSpeed ∧
    (g.clearObstaclesAndTimers).footGoose = g.footGoose := ⟨rfl, rfl, rfl, rfl, rfl⟩

/-- Clearing the coin tracker touches neither the player nor the distance. -/
theorem Game.clearCoinTracker_fields (g : Game) :
    (g.clearCoinTracker).player = g.player ∧
    (g.clearCoinTracker).distanceTraveled = g.distanceTraveled := ⟨rfl, rfl⟩

/-- C8: `startGame()` invoked while the game is already running resets score,
distance, speed, Player, FootGoose, obstacles and spawn timers, but never
invokes `applyPurchasedPowerups()`, so the shield and magnet cleared by
`Player.reset()` stay cleared and no head-start distance is added, regardless
of what the shop says; `applyPurchasedPowerups()` runs only in the
not-yet-running branch, where purchased shield/magnet/head-start do get
applied. -/
theorem startGame_branches (g : Game) :
    (g.isGameRunning = true →
       (g.startGame).score = 0 ∧
       (g.startGame).distanceTraveled = 0 ∧
       (g.startGame).gameSpeed = GAME_SPEED ∧
       (g.startGame).player = g.player.reset ∧
       (g.startGame).footGoose = g.footGoose.reset ∧
       (g.startGame).obstacles = [] ∧
       (g.startGame).spawnTimer = 0 ∧
       (g.startGame).spawnInterval = 2000 ∧
       (g.startGame).player.isShielded = false ∧
       (g.startGame).player.magnetRange = 0) ∧
    (g.isGameRunning = false →
       (g.shop.isItemPurchased "shield" = true →
          (g.startGame).player.isShielded = true) ∧
       (g.shop.isItemPurchased "magnet" = true →
          (g.startGame).player.magnetRange = 3) ∧
       (g.shop.isItemPurchased "head_start" = true →
          (g.startGame).distanceTraveled = 500)) := by
  constructor
  · intro h
    unfold Game.startGame
    rw [if_neg (by simp [h])]
    set gz : Game := { g with score := 0, distanceTraveled := 0, gameSpeed := GAME_SPEED } with hgz
    obtain ⟨-, hsc, hd, hgs, -, -, hp, hfg, -⟩ := Game.updateScore_untouched gz
    refine ⟨?_, ?_, ?_, ?_, ?_, rfl, rfl, rfl, ?_, ?_⟩
    · show (gz.updateScore).score = 0
      rw [hsc, hgz]
    · show (gz.updateScore).distanceTraveled = 0
      rw [hd, hgz]
    · show (gz.updateScore).gameSpeed = GAME_SPEED
      rw [hgs, hgz]
    · show (gz.updateScore).player.reset = g.player.reset
      rw [hp, hgz]
    · show (gz.updateScore).footGoose.reset = g.footGoose.reset
      rw [hfg, hgz]
    · show ((gz.updateScore).player.reset).isShielded = false
      rfl
    · show ((gz.updateScore).player.reset).magnetRange = 0
      rfl
  · intro h
    unfold Game.startGame
    rw [if_pos h]
    have hpur : ∀ s : String,
        (((({ g with isGameRunning := true, score := 0, distanceTraveled := 0, gameSpeed := GAME_SPEED } : Game)).updateScore).resetObjects).shop.isItemPurchased s = g.shop.isItemPurchased s := by
      intro s
      rw [(Game.resetObjects_fields _).1]
      rw [Shop.isItemPurchased_congr (Game.updateScore_shop_items _) s]
    refine ⟨?_, ?_, ?_⟩
    · intro hs
      rw [(Game.clearCoinTracker_fields _).1, (Game.clearObstaclesAndTimers_fields _).1]
      unfold Game.applyPurchasedPowerups
      rw [(Game.applyPurchasedSkins_preserves _).1, (Game.applyPurchasedShoes_preserves _).1,
        congrArg Player.isShielded (Game.applyHeadStart_effects _).2.1]
      apply (Game.applyShield_effects _).2.2.2
      rw [(Game.applyMagnet_effects _).1, hpur "shield"]
      exact hs
    · intro hs
      rw [(Game.clearCoinTracker_fields _).1, (Game.clearObstaclesAndTimers_fields _).1]
      unfold Game.applyPurchasedPowerups
      rw [(Game.applyPurchasedSkins_preserves _).2.1, (Game.applyPurchasedShoes_preserves _).2.1,
        congrArg Player.magnetRange (Game.applyHeadStart_effects _).2.1,
        (Game.applyShield_effects _).2.1]
      apply (Game.applyMagnet_effects _).2.2.2
      rw [hpur "magnet"]
      exact hs
    · intro hs
      rw [(Game.clearCoinTracker_fields _).2, (Game.clearObstaclesAndTimers_fields _).2.1]
      unfold Game.applyPurchasedPowerups
      rw [(Game.applyPurchasedSkins_preserves _).2.2.1, (Game.applyPurchasedShoes_preserves _).2.2.1]
      rw [(Game.applyHeadStart_effects _).2.2 (by
        rw [(Game.applyShield_effects _).1, (Game.applyMagnet_effects _).1, hpur "head_start"]
        exact hs)]
      rw [(Game.applyShield_effects _).2.2.1, (Game.applyMagnet_effects _).2.2.1,
        (Game.resetObjects_fields _).2, (Game.updateScore_untouched _).2.2.1]
      norm_num

/-- Witness for C8: in the concrete running game with shield, magnet and
head-start purchased, the in-place restart leaves the player unshielded with
zero magnet range and zero distance; the same game started from the
not-running state gets the shield back. -/
theorem startGame_branches_witness :
    wGame8R.startGame.player.isShielded = false ∧
    wGame8R.startGame.player.magnetRange = 0 ∧
    wGame8R.startGame.distanceTraveled = 0 ∧
    wGame8N.startGame.player.isShielded = true := by
  refine ⟨?_, ?_, ?_, ?_⟩
  · exact ((startGame_branches wGame8R).1 rfl).2.2.2.2.2.2.2.2.1
  · exact ((startGame_branches wGame8R).1 rfl).2.2.2.2.2.2.2.2.2
  · exact ((startGame_branches wGame8R).1 rfl).2.1
  · exact ((startGame_branches wGame8N).2 rfl).1 (by decide)

/-! ## C9 -/

/-- Distance/score block fields. -/
theorem Game.stepDistanceScore_fields (g : Game) (dt : ℚ) :
    (g.stepDistanceScore dt).score = ⌊g.distanceTraveled + g.gameSpeed * dt⌋ ∧
    (g.stepDistanceScore dt).distanceTraveled = g.distanceTraveled + g.gameSpeed * dt ∧
    (g.stepDistanceScore dt).gameSpeed = g.gameSpeed ∧
    (g.stepDistanceScore dt).isGameRunning = g.isGameRunning := ⟨rfl, rfl, rfl, rfl⟩

/-- Speed-ramp block fields. -/
theorem Game.stepSpeed_fields (g : Game) :
    (g.stepSpeed).score = g.score ∧
    (g.stepSpeed).distanceTraveled = g.distanceTraveled ∧
    (g.stepSpeed).gameSpeed = GAME_SPEED + g.distanceTraveled / 1000 ∧
    (g.stepSpeed).isGameRunning = g.isGameRunning := ⟨rfl, rfl, rfl, rfl⟩

/-- Player block fields. -/
theorem Game.stepPlayer_fields (g : Game) (dt : ℚ) :
    (g.stepPlayer dt).score = g.score ∧
    (g.stepPlayer dt).distanceTraveled = g.distanceTraveled ∧
    (g.stepPlayer dt).gameSpeed = g.gameSpeed ∧
    (g.stepPlayer dt).isGameRunning = g.isGameRunning := ⟨rfl, rfl, rfl, rfl⟩

/-- Spawn block fields. -/
theorem Game.stepSpawn_fields (g : Game) (dt sx : ℚ) (st : Nat) :
    (g.stepSpawn dt sx st).score = g.score ∧
    (g.stepSpawn dt sx st).distanceTraveled = g.distanceTraveled ∧
    (g.stepSpawn dt sx st).gameSpeed = g.gameSpeed ∧
    (g.stepSpawn dt sx st).isGameRunning = g.isGameRunning := by
  unfold Game.stepSpawn
  dsimp only
  split_ifs <;> exact ⟨rfl, rfl, rfl, rfl⟩

/-- Obstacle-scroll block fields. -/
theorem Game.stepObstacles_fields (g : Game) (dt : ℚ) :
    (g.stepObstacles dt).score = g.score ∧
    (g.stepObstacles dt).distanceTraveled = g.distanceTraveled ∧
    (g.stepObstacles dt).gameSpeed = g.gameSpeed ∧
    (g.stepObstacles dt).isGameRunning = g.isGameRunning := ⟨rfl, rfl, rfl, rfl⟩

/-- A frame with a capture is exactly the frame without it followed by the
capture block (+1000, score refresh, goose reset): the capture has no other
effect on the frame. -/
theorem Game.update_capture_decomp (g : Game) (dt sx : ℚ) (st : Nat)
    (h : g.isGameRunning = true) :
    g.update dt sx st false true = (g.update dt sx st false false).stepCapture true := by
  unfold Game.update
  rw [if_neg (by simp [h]), if_neg (by simp [h]), Game.stepCapture_false]

/-- What the capture block does and does not touch. -/
theorem Game.stepCapture_effects (g : Game) :
    (g.stepCapture true).score = g.score + 1000 ∧
    (g.stepCapture true).distanceTraveled = g.distanceTraveled ∧
    (g.stepCapture true).gameSpeed = g.gameSpeed ∧
    (g.stepCapture true).player = g.player ∧
    (g.stepCapture true).obstacles = g.obstacles ∧
    (g.stepCapture true).spawnTimer = g.spawnTimer ∧
    (g.stepCapture true).spawnInterval = g.spawnInterval ∧
    (g.stepCapture true).isGameRunning = g.isGameRunning := by
  unfold Game.stepCapture
  rw [if_pos rfl]
  dsimp only
  obtain ⟨hrun, hsc, hd, hgs, hst, hsi, hp, hfg, hob⟩ :=
    Game.updateScore_untouched { g with score := g.score + 1000 }
  refine ⟨?_, ?_, ?_, ?_, ?_, ?_, ?_, ?_⟩
  · rw [hsc]
  · rw [hd]
  · rw [hgs]
  · rw [hp]
  · rw [hob]
  · rw [hst]
  · rw [hsi]
  · rw [hrun]

/-- Score and distance of a running frame without collisions: the score is
recomputed as `⌊distanceTraveled⌋` from the accumulated distance, the speed
ramps, and the game keeps running. -/
theorem Game.update_nocap_fields (g : Game) (dt sx : ℚ) (st : Nat)
    (h : g.isGameRunning = true) :
    (g.update dt sx st false false).score = ⌊g.distanceTraveled + g.gameSpeed * dt⌋ ∧
    (g.update dt sx st false false).distanceTraveled =
      g.distanceTraveled + g.gameSpeed * dt ∧
    (g.update dt sx st false false).gameSpeed =
      GAME_SPEED + (g.distanceTraveled + g.gameSpeed * dt) / 1000 ∧
    (g.update dt sx st false false).isGameRunning = true := by
  unfold Game.update
  rw [if_neg (by simp [h]), Game.stepCapture_false, Game.stepObstacleHit_false]
  refine ⟨?_, ?_, ?_, ?_⟩
  · rw [(Game.stepObstacles_fields _ _).1, (Game.stepSpawn_fields _ _ _ _).1,
      (Game.stepPlayer_fields _ _).1, (Game.stepSpeed_fields _).1,
      (Game.updateScore_untouched _).2.1, (Game.stepDistanceScore_fields _ _).1]
  · rw [(Game.stepObstacles_fields _ _).2.1, (Game.stepSpawn_fields _ _ _ _).2.1,
      (Game.stepPlayer_fields _ _).2.1, (Game.stepSpeed_fields _).2.1,
      (Game.updateScore_untouched _).2.2.1, (Game.stepDistanceScore_fields _ _).2.1]
  · rw [(Game.stepObstacles_fields _ _).2.2.1, (Game.stepSpawn_fields _ _ _ _).2.2.1,
      (Game.stepPlayer_fields _ _).2.2.1, (Game.stepSpeed_fields _).2.2.1,
      (Game.updateScore_untouched _).2.2.1, (Game.stepDistanceScore_fields _ _).2.1]
  · rw [(Game.stepObstacles_fields _ _).2.2.2, (Game.stepSpawn_fields _ _ _ _).2.2.2,
      (Game.stepPlayer_fields _ _).2.2.2, (Game.stepSpeed_fields _).2.2.2,
      (Game.updateScore_untouched _).1, (Game.stepDistanceScore_fields _ _).2.2.2]
    exact h

/-- C9: the +1000 capture bonus is transient. A frame with a capture equals
the same frame without it followed only by the capture block (add 1000 to the
score, refresh the score, reset the goose): distance, speed, player and
obstacles are untouched and the bonus never reaches `distanceTraveled`, so
the very next frame — which recomputes `score = ⌊distanceTraveled⌋` before
the capture check — produces the same score and distance as if the capture
had never happened. -/
theorem capture_bonus_transient (g : Game) (dt dtp sx sxp : ℚ) (st stp : Nat)
    (h : g.isGameRunning = true) :
    g.update dt sx st false true = (g.update dt sx st false false).stepCapture true ∧
    (g.update dt sx st false true).distanceTraveled =
      (g.update dt sx st false false).distanceTraveled ∧
    (g.update dt sx st false true).gameSpeed =
      (g.update dt sx st false false).gameSpeed ∧
    (g.update dt sx st false true).player = (g.update dt sx st false false).player ∧
    (g.update dt sx st false true).obstacles =
      (g.update dt sx st false false).obstacles ∧
    (g.update dt sx st false true).score =
      (g.update dt sx st false false).score + 1000 ∧
    ((g.update dt sx st false true).update dtp sxp stp false false).score =
      ((g.update dt sx st false false).update dtp sxp stp false false).score ∧
    ((g.update dt sx st false true).update dtp sxp stp false false).distanceTraveled =
      ((g.update dt sx st false false).update dtp sxp stp false false).distanceTraveled := by
  have hdec := Game.update_capture_decomp g dt sx st h
  obtain ⟨csc, cd, cgs, cp, cob, cst, csi, crun⟩ :=
    Game.stepCapture_effects (g.update dt sx st false false)
  obtain ⟨nsc, nd, ngs, nrun⟩ := Game.update_nocap_fields g dt sx st h
  have hrunc : (g.update dt sx st false true).isGameRunning = true := by
    rw [hdec, crun, nrun]
  obtain ⟨csc2, cd2, cgs2, crun2⟩ :=
    Game.update_nocap_fields (g.update dt sx st false true) dtp sxp stp hrunc
  obtain ⟨nsc2, nd2, ngs2, nrun2⟩ :=
    Game.update_nocap_fields (g.update dt sx st false false) dtp sxp stp nrun
  refine ⟨hdec, ?_, ?_, ?_, ?_, ?_, ?_, ?_⟩
  · rw [hdec, cd]
  · rw [hdec, cgs]
  · rw [hdec, cp]
  · rw [hdec, cob]
  · rw [hdec, csc]
  · rw [csc2, nsc2, hdec, cd, cgs]
  · rw [cd2, nd2, hdec, cd, cgs]

/-- Witness for C9: a concrete running game, one captured frame, one plain
frame. -/
theorem capture_bonus_transient_witness :
    wGame9.update 1 0 0 false true =
      (wGame9.update 1 0 0 false false).stepCapture true ∧
    (wGame9.update 1 0 0 false true).score =
      (wGame9.update 1 0 0 false false).score + 1000 ∧
    ((wGame9.update 1 0 0 false true).update 1 0 0 false false).score =
      ((wGame9.update 1 0 0 false false).update 1 0 0 false false).score :=
  ⟨(capture_bonus_transient wGame9 1 1 0 0 0 0 rfl).1,
   (capture_bonus_transient wGame9 1 1 0 0 0 0 rfl).2.2.2.2.2.1,
   (capture_bonus_transient wGame9 1 1 0 0 0 0 rfl).2.2.2.2.2.2.1⟩

/-! ## C10 -/

/-- The jump-physics and safety-timer blocks never touch the horizontal
position or the slip state. -/
theorem Player.prePhases_slipfields (p : Player) (dt : ℚ) :
    ((p.updateJumpPhase dt).updateSafety dt).x = p.x ∧
    ((p.updateJumpPhase dt).updateSafety dt).isSlipping = p.isSlipping ∧
    ((p.updateJumpPhase dt).updateSafety dt).slipTimer = p.slipTimer ∧
    ((p.updateJumpPhase dt).updateSafety dt).slipDuration = p.slipDuration ∧
    ((p.updateJumpPhase dt).updateSafety dt).slipVelocity = p.slipVelocity ∧
    ((p.updateJumpPhase dt).updateSafety dt).slipDirection = p.slipDirection ∧
    ((p.updateJumpPhase dt).updateSafety dt).stats = p.stats := by
  unfold Player.updateJumpPhase Player.updateSafety
  dsimp only
  split_ifs <;> exact ⟨rfl, rfl, rfl, rfl, rfl, rfl, rfl⟩

/-- While slipping and away from the lane boundary, the slip block displaces
the x position by exactly `slipVelocity * (1 - slipResistance) * dt *
direction`: the stored slip velocity is multiplied by the resistance factor a
second time before the displacement. -/
theorem Player.updateSlipPhase_x (p : Player) (dt : ℚ)
    (hs : p.isSlipping = true)
    (hb : |p.x + p.slipVelocity * (1 - p.stats.slipResistance) * dt * p.slipDirection| ≤ 4) :
    (p.updateSlipPhase dt).x =
      p.x + p.slipVelocity * (1 - p.stats.slipResistance) * dt * p.slipDirection := by
  have habs := abs_le.mp hb
  have hlim : LANE_WIDTH / TOTAL_LANES * (3/2) = 4 := by
    norm_num [LANE_WIDTH, TOTAL_LANES]
  unfold Player.updateSlipPhase
  rw [if_pos hs]
  dsimp only
  rw [hlim]
  split_ifs with h1 h2 h3 h4 h5 <;>
    first
      | rfl
      | linarith [habs.1, habs.2]

/-- C10: the slip-resistance factor is applied twice to the slide speed.
`slip(freshness)` stores `slipVelocity = (3 + freshness*5) * (1 - r)` (and
duration `(1 + freshness*2) * (1 - r)`), and the first update frame displaces
the player by `slipVelocity * (1 - r) * dt * direction`, so the effective
initial slide speed is `(3 + freshness*5) * (1 - r)^2` rather than
`(3 + freshness*5) * (1 - r)`. -/
theorem slip_resistance_applied_twice (p : Player) (f dir dt : ℚ)
    (h : p.isSlipping = false)
    (hb : |p.x + (3 + f * 5) * (1 - p.stats.slipResistance) * (1 - p.stats.slipResistance) * dt * dir| ≤ 4) :
    (p.slip f dir).slipVelocity = (3 + f * 5) * (1 - p.stats.slipResistance) ∧
    (p.slip f dir).slipDuration = (1 + f * 2) * (1 - p.stats.slipResistance) ∧
    ((p.slip f dir).update dt).x =
      p.x + (3 + f * 5) * (1 - p.stats.slipResistance) ^ 2 * dt * dir := by
  have e0 : p.slip f dir =
      { p with
          isSlipping := true, slipTimer := 0,
          slipDuration := (1 + f * 2) * (1 - p.stats.slipResistance),
          slipDirection := dir, slipRotation := 0,
          slipVelocity := (3 + f * 5) * (1 - p.stats.slipResistance) } := by
    unfold Player.slip
    rw [if_pos h]
  obtain ⟨hx, hsl, -, -, hv, hd2, hst⟩ := Player.prePhases_slipfields (p.slip f dir) dt
  refine ⟨by rw [e0], by rw [e0], ?_⟩
  unfold Player.update
  rw [Player.updateSlipPhase_x _ dt (by rw [hsl, e0])
    (by rw [hx, hv, hd2, hst, e0]; exact hb)]
  rw [hx, hv, hd2, hst, e0]
  dsimp only
  ring

/-- Witness for C10: the purple giant (slip resistance 1/2) slipping on a
half-fresh egg slides at `(3 + 2.5) * (1/2)^2 = 1.375` units per second, not
`(3 + 2.5) * (1/2) = 2.75`. -/
theorem slip_resistance_applied_twice_witness :
    (wSlipPlayer.slip (1/2) 1).slipVelocity =
      (3 + (1/2) * 5) * (1 - wSlipPlayer.stats.slipResistance) ∧
    (wSlipPlayer.slip (1/2) 1).slipDuration =
      (1 + (1/2) * 2) * (1 - wSlipPlayer.stats.slipResistance) ∧
    ((wSlipPlayer.slip (1/2) 1).update 1).x =
      wSlipPlayer.x + (3 + (1/2) * 5) * (1 - wSlipPlayer.stats.slipResistance) ^ 2 * 1 * 1 :=
  slip_resistance_applied_twice wSlipPlayer (1/2) 1 1 rfl
    (by norm_num [wSlipPlayer, purpleGiantStats, basePlayer, defaultStats, abs_le])

end Ctfg
